import Mathlib

/-!
Shallow embedding of the data-transformation and validation pipeline of the
nr1-victory-visualizations repository (circular progress gauge, stacked bar
chart, scatter plot), together with theorems settling the frozen claims.

Numbers from query results are modelled as rationals; JavaScript's `null`,
`undefined` and `NaN` are explicit constructors so that the null-filtering,
truthiness and `Math.min`/`Math.max` coercion behaviour of the source is
reproduced faithfully.  JS objects that the source builds up by key insertion
are modelled as association lists preserving insertion order, with
assignment updating an existing key in place (as JS objects and `Map` do).
-/

/-- A JavaScript value as it occurs in query-result data points: a number,
`null`, `undefined` (also the result of reading an absent property), or `NaN`. -/
inductive JVal where
  | num (q : ℚ)
  | null
  | undefined
  | nan
deriving Repr, DecidableEq

namespace JVal

/-- JS ToNumber as used by `Math.min`/`Math.max`: `null` coerces to 0,
`undefined` and `NaN` are not numbers. -/
def toNum : JVal → Option ℚ
  | .num q => some q
  | .null => some 0
  | .undefined => none
  | .nan => none

/-- JS truthiness: numbers are truthy unless 0; `null`, `undefined`, `NaN` are falsy. -/
def truthy : JVal → Bool
  | .num q => q != 0
  | _ => false

/-- The JS `||` operator on values. -/
def jsOr (a b : JVal) : JVal := if a.truthy then a else b

/-- Two-argument `Math.min` with JS coercion (any non-number yields `NaN`). -/
def jsMin (a b : JVal) : JVal :=
  match a.toNum, b.toNum with
  | some p, some q => .num (min p q)
  | _, _ => .nan

/-- Two-argument `Math.max` with JS coercion. -/
def jsMax (a b : JVal) : JVal :=
  match a.toNum, b.toNum with
  | some p, some q => .num (max p q)
  | _, _ => .nan

/-- Spread form `Math.min(...values)` folded over a list.  On the empty list JS
returns `Infinity`, which has no rational counterpart; the claims never evaluate
the range of an empty series, so the empty case is modelled as `NaN`. -/
def jsMinList : List JVal → JVal
  | [] => .nan
  | v :: rest => rest.foldl jsMin (match v.toNum with | some q => .num q | none => .nan)

/-- Spread form `Math.max(...values)` folded over a list (empty case as in `jsMinList`). -/
def jsMaxList : List JVal → JVal
  | [] => .nan
  | v :: rest => rest.foldl jsMax (match v.toNum with | some q => .num q | none => .nan)

/-- The `v === null || v === undefined` test of `entryHasNulls`. -/
def isNullish : JVal → Bool
  | .null => true
  | .undefined => true
  | _ => false

end JVal

/-- A data point of a ResultRow: a JS object mapping field names to values,
modelled as an association list in property order. -/
abbrev DataPoint := List (String × JVal)

/-- Property read `point[key]` on a data point; an absent key reads as `undefined`. -/
def jsGet (point : DataPoint) (key : String) : JVal :=
  match point.lookup key with
  | some v => v
  | none => .undefined

/-- Property read `point[key]` where the key itself may be `undefined`
(e.g. `point[zAttributeName]` when fewer than three attributes exist). -/
def jsGetOpt (point : DataPoint) (key : Option String) : JVal :=
  match key with
  | some k => jsGet point k
  | none => .undefined

/-- The `type` of an entry of `metadata.groups`: `"function"` for aggregates,
`"facet"` for facet dimensions. -/
inductive GroupType where
  | function
  | facet
deriving Repr, DecidableEq

/-- One entry of `metadata.groups`. -/
structure MetaGroup where
  type : GroupType
  value : String
  displayName : String
deriving Repr, DecidableEq

/-- The `metadata` of a ResultRow: color token, series name, ordered `groups`,
and the `units_data` mapping from field name to unit-type tag. -/
structure Metadata where
  color : String
  name : String
  groups : List MetaGroup
  units_data : List (String × String)
deriving Repr, DecidableEq

/-- One unit of query output: an ordered sequence of data points plus metadata. -/
structure ResultRow where
  data : List DataPoint
  metadata : Metadata
deriving Repr, DecidableEq

/-- Read `data[0].y` of a row (`data?.[0]?.y` in the scatter source,
`data[0].y` in the stacked-bar source); an empty `data` array reads as
`undefined` (the optional-chained form; the claims never exercise the
unchained form on an empty array). -/
def ResultRow.firstY (row : ResultRow) : JVal :=
  match row.data.head? with
  | some p => jsGet p "y"
  | none => .undefined

/-- Worker for `dedupFirst`: keeps elements not yet seen, in order. -/
def dedupFirstAux : List String → List String → List String
  | _, [] => []
  | seen, x :: rest =>
    if seen.contains x then dedupFirstAux seen rest
    else x :: dedupFirstAux (x :: seen) rest

/-- Order-preserving deduplication, keeping the first occurrence of each
element — the observable behaviour of inserting into a JS `Set` and reading
it back with `Array.from`. -/
def dedupFirst (l : List String) : List String := dedupFirstAux [] l

/-- Modelled from the spec: `getUniqueAggregatesAndFacets` of
`src/utils/nrql-validation-helper` is not under `src/`.  Per §4.1 it scans
every row's `metadata.groups` and produces one aggregate identity per distinct
`function`-typed group and one facet identity per distinct `facet`-typed
group.  Aggregate identities are display names (the scatter source turns the
set into `functionDisplayNames` via `Array.from`). -/
def getUniqueAggregatesAndFacets (data : List ResultRow) : List String × List String :=
  let aggregates := dedupFirst (data.flatMap (fun row =>
    (row.metadata.groups.filter (fun g => g.type == GroupType.function)).map (·.displayName)))
  let facets := dedupFirst (data.flatMap (fun row =>
    (row.metadata.groups.filter (fun g => g.type == GroupType.facet)).map (·.value)))
  (aggregates, facets)

/-- Modelled from the spec: `getUniqueNonAggregates` of
`src/utils/nrql-validation-helper` is not under `src/`.  Per §4.1 it produces
one non-aggregate identity per distinct attribute key present in `data`
points; `Array.from` of the set yields the keys in first-seen order. -/
def getUniqueNonAggregates (data : List ResultRow) : List String :=
  dedupFirst (data.flatMap (fun row => row.data.flatMap (fun point => point.map Prod.fst)))

/-- Modelled from the spec: `getFacetLabel` of `src/utils/facets` is not under
`src/`.  Per §4.3 a facet label is the comma-joined `value`s of the
`facet`-typed groups handed to it (the scatter source passes all of
`metadata.groups`, the stacked-bar source a pre-filtered slice). -/
def getFacetLabel (groups : List MetaGroup) : String :=
  String.intercalate ", "
    ((groups.filter (fun g => g.type == GroupType.facet)).map (·.value))

namespace CircularProgressBar

/-- Modelled from the spec: `Colors.base.green6` of `src/colors` (the success
color token) is not under `src/`. -/
def green6 : String := "green6"

/-- Modelled from the spec: `Colors.base.red6` of `src/colors` (the critical
color token) is not under `src/`. -/
def red6 : String := "red6"

/-- The gauge's threshold configuration.  The source reads
`parseFloat(criticalThreshold)` and tests `isNaN`; a threshold that does not
parse as a number is modelled as `none`. -/
structure Thresholds where
  criticalThreshold : Option ℚ
  highValuesAreSuccess : Bool
deriving Repr, DecidableEq

/-- The gauge's `getColor`: with an unparseable threshold the data-provided
color is returned unchanged; otherwise a strict comparison of the value
against the threshold picks the success or critical color, with the direction
controlled by `highValuesAreSuccess`. -/
def getColor (thresholds : Thresholds) (value : ℚ) (colorFromData : String) : String :=
  match thresholds.criticalThreshold with
  | none => colorFromData
  | some threshold =>
    if thresholds.highValuesAreSuccess then
      if value > threshold then green6 else red6
    else
      if value < threshold then green6 else red6

/-- One slice of the gauge's two-slice series. -/
structure GaugeSlice where
  x : String
  y : ℚ
  color : String
deriving Repr, DecidableEq

/-- The gauge transform's output: percent, row label, and the two slices. -/
structure GaugeOutput where
  percent : ℚ
  label : String
  series : List GaugeSlice
deriving Repr, DecidableEq

/-- The gauge's `transformData`: destructures the first row's first data
point, scales `y` by 100 and emits a progress slice and a transparent
remainder slice.  The JS destructuring throws when a row, point or numeric
`y` is missing; those paths are modelled as `none` (the render path never
reaches them on accepted inputs). -/
def transformData (thresholds : Thresholds) (data : List ResultRow) : Option GaugeOutput :=
  match data with
  | [] => none
  | row :: _ =>
    match row.data.head? with
    | none => none
    | some series =>
      match jsGet series "y" with
      | .num y =>
        let percent := y * 100
        let color := getColor thresholds percent row.metadata.color
        some
          { percent := percent
            label := row.metadata.name
            series :=
              [ { x := "progress", y := percent, color := color },
                { x := "remainder", y := 100 - percent, color := "transparent" } ] }
      | _ => none

/-- The gauge's `nrqlInputIsValid`: one unique aggregate, zero unique facets,
and the first row's `data` has exactly one entry (non-timeseries).  The JS
destructuring of `data[0]` throws on an empty set; the render path guards
with `!data.length` first, so the empty case is modelled as `false`. -/
def nrqlInputIsValid (data : List ResultRow) : Bool :=
  match data with
  | [] => false
  | row0 :: _ =>
    let (uniqueAggregates, uniqueFacets) := getUniqueAggregatesAndFacets data
    let isNonTimeseries := row0.data.length == 1
    uniqueAggregates.length == 1 && uniqueFacets.length == 0 && isNonTimeseries

end CircularProgressBar

/-- C1: gauge threshold coloring.  With an unparseable threshold the
data-provided color is returned unchanged; with a numeric threshold and
`highValuesAreSuccess` the success color is returned exactly when
`percent > threshold`, otherwise the critical color; with
`highValuesAreSuccess` false the success color exactly when
`percent < threshold`; comparisons are strict, so `percent = threshold`
yields the critical color in both modes. -/
theorem c1_gauge_getColor_threshold_rule (percent t : ℚ) (c : String) (hvs : Bool) :
    CircularProgressBar.getColor ⟨none, hvs⟩ percent c = c ∧
    (CircularProgressBar.getColor ⟨some t, true⟩ percent c = CircularProgressBar.green6 ↔ percent > t) ∧
    (CircularProgressBar.getColor ⟨some t, true⟩ percent c = CircularProgressBar.red6 ↔ ¬ percent > t) ∧
    (CircularProgressBar.getColor ⟨some t, false⟩ percent c = CircularProgressBar.green6 ↔ percent < t) ∧
    (CircularProgressBar.getColor ⟨some t, false⟩ percent c = CircularProgressBar.red6 ↔ ¬ percent < t) ∧
    CircularProgressBar.getColor ⟨some t, hvs⟩ t c = CircularProgressBar.red6 := by
  unfold CircularProgressBar.getColor
  refine ⟨rfl, ?_, ?_, ?_, ?_, ?_⟩
  · by_cases h : percent > t <;> simp [h, CircularProgressBar.green6, CircularProgressBar.red6]
  · by_cases h : percent > t <;> simp [h, CircularProgressBar.green6, CircularProgressBar.red6]
  · by_cases h : percent < t <;> simp [h, CircularProgressBar.green6, CircularProgressBar.red6]
  · by_cases h : percent < t <;> simp [h, CircularProgressBar.green6, CircularProgressBar.red6]
  · cases hvs <;> simp

/-- Insert-or-update on an association list: an existing key is updated in
place (keeping its position), a new key is appended at the end — the
observable key order of JS object assignment and of `Map.set`. -/
def upsertA {v : Type} (k : String) (f : Option v → v) : List (String × v) → List (String × v)
  | [] => [(k, f none)]
  | (k0, v0) :: rest =>
    if k0 == k then (k0, f (some v0)) :: rest else (k0, v0) :: upsertA k f rest

/-- Lookup on an association list, as JS property access (`none` = absent). -/
def lookupA {v : Type} (k : String) : List (String × v) → Option v
  | [] => none
  | (k0, v0) :: rest => if k0 == k then some v0 else lookupA k rest

namespace ScatterPlotChart

/-- The per-facet accumulator entry of `getAggregatesData`'s reduce: a JS
object starting empty (`acc[facetGroupName] = {}`) whose fields are assigned
by the `switch` on the aggregate function's position.  A `none` field was
never assigned (and reads as `undefined` in JS); `undefined`-valued unit and
display-name assignments are conflated with `none`, which no claim observes. -/
structure AggEntry where
  color : Option String := none
  x : Option JVal := none
  xUnitType : Option String := none
  xDisplayName : Option String := none
  y : Option JVal := none
  yUnitType : Option String := none
  yDisplayName : Option String := none
  z : Option JVal := none
  zUnitType : Option String := none
  zDisplayName : Option String := none
deriving Repr, DecidableEq

/-- A normalized scatter series point, covering both modes.  Aggregate-mode
entries carry a `facetGroupName`; the `z` field is present only when the
source assigned it (reading an absent `z` yields `undefined`). -/
structure SPoint where
  facetGroupName : Option String := none
  x : JVal := .undefined
  y : JVal := .undefined
  z : Option JVal := none
  color : Option String := none
  xUnitType : Option String := none
  xDisplayName : Option String := none
  yUnitType : Option String := none
  yDisplayName : Option String := none
  zUnitType : Option String := none
  zDisplayName : Option String := none
deriving Repr, DecidableEq

/-- The `{xMin, xMax, yMin, yMax}` range returned alongside a scatter series. -/
structure ScatterRange where
  xMin : JVal
  xMax : JVal
  yMin : JVal
  yMax : JVal
deriving Repr, DecidableEq

/-- The value of a scatter transformation: the retained series and the range. -/
structure ScatterResult where
  series : List SPoint
  range : ScatterRange
deriving Repr, DecidableEq

/-- The scatter source's `entryHasNulls`: x and y (and z when the query has a
z field) must not be `null` or `undefined`. -/
def entryHasNulls (entry : SPoint) (queryHasZField : Bool) : Bool :=
  (([entry.x, entry.y] ++ if queryHasZField then [entry.z.getD .undefined] else []).any
    JVal.isNullish)

/-- The reduce inside `getAggregatesData`: one entry per facet label, fields
assigned from each row according to the position of the row's aggregate
function among `functionDisplayNames`; rows labelled `"Other"` are skipped
when `showOther` is false. -/
def aggFacetGroupData (showOther : Bool) (functionDisplayNames : List String)
    (rawData : List ResultRow) : List (String × AggEntry) :=
  rawData.foldl
    (fun acc row =>
      let facetGroupName := getFacetLabel row.metadata.groups
      if !showOther && facetGroupName == "Other" then acc
      else
        let dataValue := row.firstY
        let unitType := lookupA "y" row.metadata.units_data
        let aggregateFunction :=
          (row.metadata.groups.filter (fun g => g.type == GroupType.function)).head?
        let functionDisplayName := aggregateFunction.map (·.displayName)
        let functionPosition :=
          functionDisplayName.bind (fun d => functionDisplayNames.findIdx? (· == d))
        let acc1 :=
          if (lookupA facetGroupName acc).isSome then acc
          else acc ++ [(facetGroupName, ({} : AggEntry))]
        match functionPosition with
        | some 0 =>
          upsertA facetGroupName
            (fun e =>
              { e.getD {} with
                color := some row.metadata.color, x := some dataValue,
                xUnitType := unitType, xDisplayName := functionDisplayName }) acc1
        | some 1 =>
          upsertA facetGroupName
            (fun e =>
              { e.getD {} with
                y := some dataValue,
                yUnitType := unitType, yDisplayName := functionDisplayName }) acc1
        | some 2 =>
          upsertA facetGroupName
            (fun e =>
              { e.getD {} with
                z := some dataValue,
                zUnitType := unitType, zDisplayName := functionDisplayName }) acc1
        | _ => acc1)
    []

/-- The pre-filter `series` of `getAggregatesData`: the grouped entries in
insertion order, spread into points tagged with their facet label. -/
def aggSeries (showOther : Bool) (functionDisplayNames : List String)
    (rawData : List ResultRow) : List SPoint :=
  (aggFacetGroupData showOther functionDisplayNames rawData).map
    (fun p =>
      { facetGroupName := some p.1
        x := p.2.x.getD .undefined
        y := p.2.y.getD .undefined
        z := p.2.z
        color := p.2.color
        xUnitType := p.2.xUnitType, xDisplayName := p.2.xDisplayName
        yUnitType := p.2.yUnitType, yDisplayName := p.2.yDisplayName
        zUnitType := p.2.zUnitType, zDisplayName := p.2.zDisplayName })

/-- The scatter source's `getAggregatesData`: group rows by facet label,
filter entries with nulls, and compute the range over the retained entries. -/
def getAggregatesData (showOther : Bool) (functionDisplayNames : List String)
    (rawData : List ResultRow) : ScatterResult :=
  let queryHasZField := functionDisplayNames.length > 2
  let series := aggSeries showOther functionDisplayNames rawData
  let seriesWithoutNulls := series.filter (fun e => ! entryHasNulls e queryHasZField)
  let xValues := seriesWithoutNulls.map (·.x)
  let yValues := seriesWithoutNulls.map (·.y)
  { series := seriesWithoutNulls
    range :=
      { xMin := JVal.jsMinList xValues
        xMax := JVal.jsMaxList xValues
        yMin := JVal.jsMinList yValues
        yMax := JVal.jsMaxList yValues } }

/-- The running-range state of `getNonAggregatesData`: the JS `let` variables
start out `undefined`. -/
structure NonAggState where
  revPoints : List SPoint := []
  xMin : JVal := .undefined
  xMax : JVal := .undefined
  yMin : JVal := .undefined
  yMax : JVal := .undefined
deriving Repr, DecidableEq

/-- The datapoint built for one mapped point of `getNonAggregatesData`: the
first two attribute names map to x/y, and `z` is attached only when the third
attribute's value is truthy (`if (point[zAttributeName])`). -/
def nonAggPoint (xA yA zA : Option String) (xU yU zU : Option String) (color : String)
    (point : DataPoint) : SPoint :=
  let x := jsGetOpt point xA
  let y := jsGetOpt point yA
  let zv := jsGetOpt point zA
  let base : SPoint :=
    { x := x, y := y
      xDisplayName := xA, yDisplayName := yA
      xUnitType := xU, yUnitType := yU
      color := some color }
  if zv.truthy then { base with z := some zv, zDisplayName := zA, zUnitType := zU }
  else base

/-- One step of `getNonAggregatesData`'s `data.map`: build the datapoint and
update the running min/max (note: computed for every mapped point, before any
null filtering, with JS `||` and `Math.min` coercions). -/
def nonAggStep (xA yA zA : Option String) (xU yU zU : Option String) (color : String)
    (st : NonAggState) (point : DataPoint) : NonAggState :=
  let x := jsGetOpt point xA
  let y := jsGetOpt point yA
  { revPoints := nonAggPoint xA yA zA xU yU zU color point :: st.revPoints
    xMin := JVal.jsMin (JVal.jsOr st.xMin x) x
    xMax := JVal.jsMax (JVal.jsOr st.xMax x) x
    yMin := JVal.jsMin (JVal.jsOr st.yMin y) y
    yMax := JVal.jsMax (JVal.jsOr st.yMax y) y }

/-- The scatter source's `getNonAggregatesData`: attribute names come from the
unique non-aggregates in first-seen order; only the first row's data points
are mapped; points are then filtered by `entryHasNulls`, while the range was
already accumulated over all mapped points.  JS throws reading `rawData[0]`
on an empty set (unreachable from `transformData`); that case is `none`. -/
def getNonAggregatesData (rawData : List ResultRow) : Option ScatterResult :=
  match rawData with
  | [] => none
  | row0 :: _ =>
    let uniqueNonAggregates := getUniqueNonAggregates rawData
    let queryHasZField := uniqueNonAggregates.length > 2
    let xAttributeName := uniqueNonAggregates.get? 0
    let yAttributeName := uniqueNonAggregates.get? 1
    let zAttributeName := uniqueNonAggregates.get? 2
    let xUnitType := xAttributeName.bind (fun k => lookupA k row0.metadata.units_data)
    let yUnitType := yAttributeName.bind (fun k => lookupA k row0.metadata.units_data)
    let zUnitType := zAttributeName.bind (fun k => lookupA k row0.metadata.units_data)
    let color := row0.metadata.color
    let st := row0.data.foldl
      (nonAggStep xAttributeName yAttributeName zAttributeName
        xUnitType yUnitType zUnitType color)
      {}
    let series := st.revPoints.reverse
    let seriesWithoutNulls := series.filter (fun e => ! entryHasNulls e queryHasZField)
    some
      { series := seriesWithoutNulls
        range := { xMin := st.xMin, xMax := st.xMax, yMin := st.yMin, yMax := st.yMax } }

/-- The scatter source's `transformData`: non-aggregate mode whenever more
than one unique non-aggregate attribute exists, else aggregate mode whenever
more than one unique aggregate exists, else `null`. -/
def transformData (showOther : Bool) (data : List ResultRow) : Option ScatterResult :=
  let uniqueNonAggregates := getUniqueNonAggregates data
  if uniqueNonAggregates.length > 1 then
    getNonAggregatesData data
  else
    let uniqueAggregates := (getUniqueAggregatesAndFacets data).1
    if uniqueAggregates.length > 1 then
      some (getAggregatesData showOther uniqueAggregates data)
    else
      none

/-- The scatter source's `nrqlInputIsValid`: at least two unique aggregates
or at least two unique non-aggregate attributes. -/
def nrqlInputIsValid (data : List ResultRow) : Bool :=
  (getUniqueAggregatesAndFacets data).1.length ≥ 2 ∨
    (getUniqueNonAggregates data).length ≥ 2

end ScatterPlotChart

namespace StackedBarChart

/-- The stacked-bar source's `validateNRQLInput`: counts `function`- and
`facet`-typed groups of the FIRST row's metadata; accepts exactly one
aggregate and at least one facet. -/
def validateNRQLInput (data : List ResultRow) : Bool :=
  match data with
  | [] => false
  | row0 :: _ =>
    let numOfAggregates :=
      (row0.metadata.groups.filter (fun g => g.type == GroupType.function)).length
    let numOfFacets :=
      (row0.metadata.groups.filter (fun g => g.type == GroupType.facet)).length
    numOfAggregates == 1 && numOfFacets > 0

/-- The bar/segment label pair derived from a row's groups. -/
structure FacetLabels where
  barLabel : String
  segmentLabel : String
deriving Repr, DecidableEq

/-- The stacked-bar source's `getFacetLabels`: `barLabel` is the facet label
of all facet groups but the last (`slice(0, -1)`), `segmentLabel` the last
facet group's `value`.  JS throws when no facet group exists (the validator
guarantees at least one); that case is modelled with a sentinel. -/
def getFacetLabels (groups : List MetaGroup) : FacetLabels :=
  let facetGroups := groups.filter (fun g => g.type == GroupType.facet)
  { barLabel := getFacetLabel facetGroups.dropLast
    segmentLabel :=
      match facetGroups.getLast? with
      | some g => g.value
      | none => "undefined" }

/-- One bar segment of the transformed output.  The source also attaches a
two-line tooltip `label` built from `segmentLabel` and the formatted value
(`toLocaleString` plus a unit suffix); that string formatting is pure
presentation, referenced by no claim, and is omitted here. -/
structure BarSegment where
  segmentLabel : String
  x : String
  y : JVal
  color : Option String
deriving Repr, DecidableEq

/-- The accumulator of `transformData`'s reduce: the `colorsBySegmentLabel`
map (set-if-absent) and the two-level `facetBreakdown`
(`segmentLabel → barLabel → value`). -/
structure StackState where
  colors : List (String × String) := []
  breakdown : List (String × List (String × JVal)) := []
deriving Repr, DecidableEq

/-- The unconditional body of the stacked-bar reduce step: record the
segment's color on first sight; assign `data[0].y` at
`(segmentLabel, barLabel)`, overwriting any earlier value at that key pair. -/
def stackStepBody (st : StackState) (row : ResultRow) : StackState :=
  let labels := getFacetLabels row.metadata.groups
  let colors :=
    if (lookupA labels.segmentLabel st.colors).isSome then st.colors
    else st.colors ++ [(labels.segmentLabel, row.metadata.color)]
  let breakdown :=
    upsertA labels.segmentLabel
      (fun inner => upsertA labels.barLabel (fun _ => row.firstY) (inner.getD []))
      st.breakdown
  { colors := colors, breakdown := breakdown }

/-- One step of the stacked-bar reduce with the overflow-bucket guard: when
`visible` is false, rows whose `barLabel` is `"Other"` are skipped. -/
def stackStep (visible : Bool) (st : StackState) (row : ResultRow) : StackState :=
  let labels := getFacetLabels row.metadata.groups
  if !visible && labels.barLabel == "Other" then st
  else stackStepBody st row

/-- The stacked-bar source's `transformData`: fold the rows into the
two-level breakdown, then flatten to one list of bar segments per
`segmentLabel`, in insertion order, with the segment's first-seen color. -/
def transformData (visible : Bool) (rawData : List ResultRow) : List (List BarSegment) :=
  let st := rawData.foldl (stackStep visible) {}
  st.breakdown.map
    (fun seg =>
      seg.2.map (fun bar =>
        { segmentLabel := seg.1
          x := bar.1
          y := bar.2
          color := lookupA seg.1 st.colors }))

/-- The stacked-bar source's `getBarCount`: the number of distinct `x`
(bar label) values across all segment series. -/
def getBarCount (data : List (List BarSegment)) : Nat :=
  (dedupFirst (data.flatMap (fun series => series.map (·.x)))).length

end StackedBarChart

theorem lookupA_upsertA_self {v : Type} (k : String) (f : Option v → v)
    (l : List (String × v)) : lookupA k (upsertA k f l) = some (f (lookupA k l)) := by
  induction l with
  | nil => simp [upsertA, lookupA]
  | cons p rest ih =>
    obtain ⟨k0, v0⟩ := p
    by_cases h : k0 = k
    · subst h
      simp [upsertA, lookupA]
    · simp [upsertA, lookupA, beq_iff_eq, h, ih]

theorem lookupA_upsertA_ne {v : Type} (k k1 : String) (h : k1 ≠ k) (f : Option v → v)
    (l : List (String × v)) : lookupA k1 (upsertA k f l) = lookupA k1 l := by
  induction l with
  | nil => simp [upsertA, lookupA, beq_iff_eq, Ne.symm h]
  | cons p rest ih =>
    obtain ⟨k0, v0⟩ := p
    by_cases h0 : k0 = k
    · subst h0
      simp [upsertA, lookupA, beq_iff_eq, Ne.symm h]
    · by_cases h1 : k0 = k1
      · subst h1
        simp [upsertA, lookupA, beq_iff_eq, h0]
      · simp [upsertA, lookupA, beq_iff_eq, h0, h1, ih]

theorem mem_upsertA {v : Type} {p : String × v} {k : String} {f : Option v → v}
    {l : List (String × v)} (hp : p ∈ upsertA k f l) :
    p ∈ l ∨ p = (k, f (lookupA k l)) := by
  induction l with
  | nil =>
    simp only [upsertA, List.mem_singleton] at hp
    exact Or.inr (by simpa [lookupA] using hp)
  | cons q rest ih =>
    obtain ⟨k0, v0⟩ := q
    by_cases h : k0 = k
    · subst h
      simp only [upsertA, beq_self_eq_true, if_pos, List.mem_cons] at hp
      rcases hp with hp | hp
      · exact Or.inr (by simpa [lookupA] using hp)
      · exact Or.inl (List.mem_cons_of_mem _ hp)
    · simp only [upsertA, beq_iff_eq, h, if_neg, List.mem_cons, not_false_iff] at hp
      rcases hp with hp | hp
      · exact Or.inl (by simp [hp])
      · rcases ih hp with h1 | h1
        · exact Or.inl (List.mem_cons_of_mem _ h1)
        · exact Or.inr (by simpa [lookupA, beq_iff_eq, h] using h1)

theorem lookupA_eq_some_mem {v : Type} {k : String} {l : List (String × v)} {v0 : v}
    (h : lookupA k l = some v0) : (k, v0) ∈ l := by
  induction l with
  | nil => simp [lookupA] at h
  | cons p rest ih =>
    obtain ⟨k0, w⟩ := p
    by_cases h0 : k0 = k
    · subst h0
      simp only [lookupA, beq_self_eq_true, if_pos, Option.some.injEq] at h
      simp [h]
    · simp only [lookupA, beq_iff_eq, h0, if_neg, not_false_iff] at h
      exact List.mem_cons_of_mem _ (ih h)

theorem keysOf_upsertA {v : Type} (k : String) (f : Option v → v) (l : List (String × v)) :
    (upsertA k f l).map Prod.fst =
      if (lookupA k l).isSome then l.map Prod.fst else l.map Prod.fst ++ [k] := by
  induction l with
  | nil => simp [upsertA, lookupA]
  | cons p rest ih =>
    obtain ⟨k0, v0⟩ := p
    by_cases h : k0 = k
    · subst h
      simp [upsertA, lookupA]
    · simp only [upsertA, lookupA, beq_iff_eq, h, if_neg, not_false_iff, List.map_cons, ih]
      by_cases hs : (lookupA k rest).isSome <;> simp [hs]

theorem lookupA_isSome_iff {v : Type} (k : String) (l : List (String × v)) :
    (lookupA k l).isSome = true ↔ k ∈ l.map Prod.fst := by
  induction l with
  | nil => simp [lookupA]
  | cons p rest ih =>
    obtain ⟨k0, v0⟩ := p
    by_cases h : k0 = k
    · subst h
      simp [lookupA]
    · simp [lookupA, beq_iff_eq, h, ih, Ne.symm h]

theorem nodup_keys_upsertA {v : Type} (k : String) (f : Option v → v)
    {l : List (String × v)} (h : (l.map Prod.fst).Nodup) :
    ((upsertA k f l).map Prod.fst).Nodup := by
  rw [keysOf_upsertA]
  by_cases hs : (lookupA k l).isSome
  · simp [hs, h]
  · have hk : k ∉ l.map Prod.fst := by
      rw [← lookupA_isSome_iff]
      simpa using hs
    simp only [hs, if_neg, not_false_iff]
    exact List.Nodup.append h (List.nodup_singleton k) (by simpa using hk)

theorem mem_iff_lookupA {v : Type} {l : List (String × v)} (h : (l.map Prod.fst).Nodup)
    (k : String) (v0 : v) : (k, v0) ∈ l ↔ lookupA k l = some v0 := by
  constructor
  · intro hm
    induction l with
    | nil => simp at hm
    | cons p rest ih =>
      obtain ⟨k0, w⟩ := p
      rcases List.mem_cons.mp hm with he | hm2
      · have hk : k0 = k := (congrArg Prod.fst he).symm
        have hv : w = v0 := (congrArg Prod.snd he).symm
        subst hk
        subst hv
        simp [lookupA]
      · have hk0 : k0 ∉ rest.map Prod.fst := (List.nodup_cons.mp (by simpa using h)).1
        have hkne : k0 ≠ k := by
          intro hkk
          subst hkk
          exact hk0 (List.mem_map.mpr ⟨(k0, v0), hm2, rfl⟩)
        have hrest : (rest.map Prod.fst).Nodup := (List.nodup_cons.mp (by simpa using h)).2
        simp only [lookupA, beq_iff_eq, hkne, if_neg, not_false_iff]
        exact ih hrest hm2
  · exact lookupA_eq_some_mem

theorem foldl_jsMin_num (qs : List ℚ) (a : ℚ) :
    (qs.map JVal.num).foldl JVal.jsMin (JVal.num a) = JVal.num (qs.foldl min a) := by
  induction qs generalizing a with
  | nil => rfl
  | cons q rest ih => simpa [JVal.jsMin, JVal.toNum] using ih (min a q)

theorem foldl_jsMax_num (qs : List ℚ) (a : ℚ) :
    (qs.map JVal.num).foldl JVal.jsMax (JVal.num a) = JVal.num (qs.foldl max a) := by
  induction qs generalizing a with
  | nil => rfl
  | cons q rest ih => simpa [JVal.jsMax, JVal.toNum] using ih (max a q)

theorem jsMinList_num (q0 : ℚ) (qs : List ℚ) :
    JVal.jsMinList ((q0 :: qs).map JVal.num) = JVal.num (qs.foldl min q0) := by
  simpa [JVal.jsMinList, JVal.toNum] using foldl_jsMin_num qs q0

theorem jsMaxList_num (q0 : ℚ) (qs : List ℚ) :
    JVal.jsMaxList ((q0 :: qs).map JVal.num) = JVal.num (qs.foldl max q0) := by
  simpa [JVal.jsMaxList, JVal.toNum] using foldl_jsMax_num qs q0

theorem foldl_min_spec (qs : List ℚ) (a : ℚ) :
    qs.foldl min a ∈ a :: qs ∧ ∀ x ∈ a :: qs, qs.foldl min a ≤ x := by
  induction qs generalizing a with
  | nil => simp
  | cons q rest ih =>
    obtain ⟨hmem, hle⟩ := ih (min a q)
    constructor
    · rcases List.mem_cons.mp hmem with he | hm
      · rcases min_choice a q with hc | hc <;> rw [List.foldl_cons, he, hc] <;> simp
      · exact List.mem_cons_of_mem _ (List.mem_cons_of_mem _ hm)
    · intro x hx
      rcases List.mem_cons.mp hx with he | hx2
      · subst he
        exact le_trans (hle _ (List.mem_cons_self _ _)) (min_le_left _ _)
      · rcases List.mem_cons.mp hx2 with he | hx3
        · subst he
          exact le_trans (hle _ (List.mem_cons_self _ _)) (min_le_right _ _)
        · exact hle _ (List.mem_cons_of_mem _ hx3)

theorem foldl_max_spec (qs : List ℚ) (a : ℚ) :
    qs.foldl max a ∈ a :: qs ∧ ∀ x ∈ a :: qs, x ≤ qs.foldl max a := by
  induction qs generalizing a with
  | nil => simp
  | cons q rest ih =>
    obtain ⟨hmem, hle⟩ := ih (max a q)
    constructor
    · rcases List.mem_cons.mp hmem with he | hm
      · rcases max_choice a q with hc | hc <;> rw [List.foldl_cons, he, hc] <;> simp
      · exact List.mem_cons_of_mem _ (List.mem_cons_of_mem _ hm)
    · intro x hx
      rcases List.mem_cons.mp hx with he | hx2
      · subst he
        exact le_trans (le_max_left _ _) (hle _ (List.mem_cons_self _ _))
      · rcases List.mem_cons.mp hx2 with he | hx3
        · subst he
          exact le_trans (le_max_right _ _) (hle _ (List.mem_cons_self _ _))
        · exact hle _ (List.mem_cons_of_mem _ hx3)

theorem entryHasNulls_no_z (e : ScatterPlotChart.SPoint) :
    ScatterPlotChart.entryHasNulls e false = (e.x.isNullish || e.y.isNullish) := by
  simp [ScatterPlotChart.entryHasNulls]

theorem entryHasNulls_with_z (e : ScatterPlotChart.SPoint) :
    ScatterPlotChart.entryHasNulls e true =
      (e.x.isNullish || e.y.isNullish || (e.z.getD .undefined).isNullish) := by
  simp [ScatterPlotChart.entryHasNulls, Bool.or_assoc]

/-- A `function`-typed metadata group with equal value and display name. -/
def fnGroup (dn : String) : MetaGroup := ⟨GroupType.function, dn, dn⟩

/-- A `facet`-typed metadata group carrying the given facet value. -/
def facetGroup (v : String) : MetaGroup := ⟨GroupType.facet, v, v⟩

/-- First row of the spec's two-facet stacked-bar example:
`{region:"us", host:"a", y:5}` under `avg(duration)`. -/
def sbRow1 : ResultRow :=
  ⟨[[("y", .num 5)]],
   ⟨"c1", "series1", [fnGroup "avg(duration)", facetGroup "us", facetGroup "a"], [("y", "ms")]⟩⟩

/-- Second row of the spec's two-facet stacked-bar example:
`{region:"us", host:"b", y:7}`. -/
def sbRow2 : ResultRow :=
  ⟨[[("y", .num 7)]],
   ⟨"c2", "series2", [fnGroup "avg(duration)", facetGroup "us", facetGroup "b"], [("y", "ms")]⟩⟩

/-- A single-aggregate, facet-free row with one data point. -/
def gaugeRow1 : ResultRow := ⟨[[("y", .num 1)]], ⟨"blue", "count", [fnGroup "count"], []⟩⟩

/-- A row with the same metadata as `gaugeRow1` but two data points. -/
def gaugeRow2 : ResultRow :=
  ⟨[[("y", .num 2)], [("y", .num 3)]], ⟨"blue", "count", [fnGroup "count"], []⟩⟩

/-- A single-aggregate row whose data point holds `y = 2` (a value above 1). -/
def gaugeRow200 : ResultRow := ⟨[[("y", .num 2)]], ⟨"blue", "count", [fnGroup "count"], []⟩⟩

/-- The rational 1/5 (the `0.2` of the spec's scatter example), written as a
normal-form fraction so that kernel evaluation of equalities on it succeeds. -/
def fifth : ℚ := ⟨1, 5, by norm_num, Nat.coprime_one_left 5⟩

/-- The spec's non-aggregate scatter example: two attributes, second point's
y is `null`. -/
def naRow : ResultRow :=
  ⟨[[("duration", .num 1), ("externalDuration", .num fifth)],
    [("duration", .num 2), ("externalDuration", JVal.null)]],
   ⟨"blue", "s", [], [("duration", "ms"), ("externalDuration", "ms")]⟩⟩

/-- A three-attribute non-aggregate row whose single point has numeric x and
y but a `null` third attribute. -/
def na3Row : ResultRow :=
  ⟨[[("a", .num 1), ("b", .num 2), ("c", JVal.null)]], ⟨"blue", "s", [], []⟩⟩

/-- A two-attribute non-aggregate row whose second point has a `null` y but
an x value (1) below the retained point's x value (2). -/
def c5Row : ResultRow :=
  ⟨[[("a", .num 2), ("b", .num 5)], [("a", .num 1), ("b", JVal.null)]], ⟨"blue", "s", [], []⟩⟩

/-- A non-aggregate row with retained x-values `[2, 5, 1]`. -/
def c5bRow : ResultRow :=
  ⟨[[("a", .num 2), ("b", .num 1)], [("a", .num 5), ("b", .num 1)],
    [("a", .num 1), ("b", .num 1)]], ⟨"blue", "s", [], []⟩⟩

/-- C2: scatter mode selection.  Non-aggregate mode is taken whenever the
unique non-aggregate count exceeds 1 (priority over aggregate mode);
aggregate mode only when the non-aggregate count is at most 1 and the unique
aggregate count exceeds 1; otherwise `transformData` yields no series. -/
theorem c2_scatter_mode_selection (showOther : Bool) (data : List ResultRow) :
    ((getUniqueNonAggregates data).length > 1 →
      ScatterPlotChart.transformData showOther data =
        ScatterPlotChart.getNonAggregatesData data) ∧
    ((getUniqueNonAggregates data).length ≤ 1 →
      (getUniqueAggregatesAndFacets data).1.length > 1 →
      ScatterPlotChart.transformData showOther data =
        some (ScatterPlotChart.getAggregatesData showOther
          (getUniqueAggregatesAndFacets data).1 data)) ∧
    ((getUniqueNonAggregates data).length ≤ 1 →
      (getUniqueAggregatesAndFacets data).1.length ≤ 1 →
      ScatterPlotChart.transformData showOther data = none) := by
  refine ⟨fun h => ?_, fun h1 h2 => ?_, fun h1 h2 => ?_⟩
  · simp [ScatterPlotChart.transformData, h]
  · simp [ScatterPlotChart.transformData, Nat.not_lt.mpr h1, h2]
  · simp [ScatterPlotChart.transformData, Nat.not_lt.mpr h1, Nat.not_lt.mpr h2]

/-- Witness for C2: on the empty row set both unique counts are 0, so the
transformation yields no series. -/
theorem c2_scatter_mode_selection_witness :
    ScatterPlotChart.transformData true [] = none :=
  (c2_scatter_mode_selection true []).2.2 (by decide) (by decide)

/-- C3 counterexample: on the spec's own two-facet example the transformation
yields TWO segment groups (one per host value), not one segment group with
two bar entries. -/
theorem c3_stacked_example_counterexample :
    StackedBarChart.transformData true [sbRow1, sbRow2] =
      [ [ { segmentLabel := "a", x := "us", y := JVal.num 5, color := some "c1" } ],
        [ { segmentLabel := "b", x := "us", y := JVal.num 7, color := some "c2" } ] ] ∧
    (StackedBarChart.transformData true [sbRow1, sbRow2]).length ≠ 1 := by
  constructor
  · decide
  · decide

/-- C3 amended: barLabel is the comma-joined values of all facet groups but
the last and segmentLabel is the last facet group's value; the example rows
therefore land in two segment groups ("a" and "b"), each containing one bar
entry keyed by the region value "us", with values 5 and 7 respectively. -/
theorem c3_stacked_two_facet_example :
    StackedBarChart.getFacetLabels sbRow1.metadata.groups =
      { barLabel := "us", segmentLabel := "a" } ∧
    StackedBarChart.getFacetLabels sbRow2.metadata.groups =
      { barLabel := "us", segmentLabel := "b" } ∧
    StackedBarChart.transformData true [sbRow1, sbRow2] =
      [ [ { segmentLabel := "a", x := "us", y := JVal.num 5, color := some "c1" } ],
        [ { segmentLabel := "b", x := "us", y := JVal.num 7, color := some "c2" } ] ] := by
  refine ⟨by decide, by decide, by decide⟩

/-- C8 counterexample: a two-row set with one unique aggregate, no facets,
one point in the first row but TWO points in the second row is accepted by
the gauge validator, contradicting the claim that any row with 2 or more
data points is rejected. -/
theorem c8_gauge_validator_counterexample :
    getUniqueAggregatesAndFacets [gaugeRow1, gaugeRow2] = (["count"], []) ∧
    gaugeRow2.data.length = 2 ∧
    CircularProgressBar.nrqlInputIsValid [gaugeRow1, gaugeRow2] = true := by
  refine ⟨by decide, by decide, by decide⟩

/-- C8 amended: the gauge validator accepts exactly when the unique
aggregates number 1, the unique facets number 0, and the FIRST row has
exactly 1 data point; the point counts of subsequent rows are not checked
(and the empty row set is rejected). -/
theorem c8_gauge_validator_first_row_only (row0 : ResultRow) (rest : List ResultRow) :
    (CircularProgressBar.nrqlInputIsValid (row0 :: rest) = true ↔
      (getUniqueAggregatesAndFacets (row0 :: rest)).1.length = 1 ∧
      (getUniqueAggregatesAndFacets (row0 :: rest)).2.length = 0 ∧
      row0.data.length = 1) ∧
    CircularProgressBar.nrqlInputIsValid [] = false := by
  constructor
  · simp [CircularProgressBar.nrqlInputIsValid, and_assoc]
  · rfl

/-- C10: on any accepted gauge input whose single data point's `y` is the
number `q`, the transform emits exactly the progress slice `q * 100` and the
remainder slice `100 - q * 100`; they sum to exactly 100, and no clamping
occurs: for `q > 1` the remainder slice is negative, for `q < 0` the
progress slice is negative. -/
theorem c10_gauge_slices_sum (thresholds : CircularProgressBar.Thresholds)
    (row : ResultRow) (rows : List ResultRow) (point : DataPoint) (ps : List DataPoint)
    (q : ℚ) (hd : row.data = point :: ps) (hy : jsGet point "y" = JVal.num q) :
    ∃ out, CircularProgressBar.transformData thresholds (row :: rows) = some out ∧
      out.series.map (fun s => s.y) = [q * 100, 100 - q * 100] ∧
      (out.series.map (fun s => s.y)).sum = 100 ∧
      (q > 1 → 100 - q * 100 < 0) ∧
      (q < 0 → q * 100 < 0) := by
  refine ⟨{ percent := q * 100, label := row.metadata.name,
            series :=
              [ { x := "progress", y := q * 100,
                  color := CircularProgressBar.getColor thresholds (q * 100) row.metadata.color },
                { x := "remainder", y := 100 - q * 100, color := "transparent" } ] },
         ?_, by simp, ?_, ?_, ?_⟩
  · simp [CircularProgressBar.transformData, hd, hy]
  · simp
  · intro h
    nlinarith
  · intro h
    nlinarith

/-- Witness for C10: the accepted input with `y = 2` produces slices 200
and -100, which sum to 100, the remainder being negative. -/
theorem c10_gauge_slices_sum_witness :
    ∃ out, CircularProgressBar.transformData ⟨some 50, true⟩ [gaugeRow200] = some out ∧
      out.series.map (fun s => s.y) = [(2 : ℚ) * 100, 100 - (2 : ℚ) * 100] ∧
      (out.series.map (fun s => s.y)).sum = 100 ∧
      ((2 : ℚ) > 1 → 100 - (2 : ℚ) * 100 < 0) ∧
      ((2 : ℚ) < 0 → (2 : ℚ) * 100 < 0) :=
  c10_gauge_slices_sum ⟨some 50, true⟩ gaugeRow200 [] [("y", .num 2)] [] 2
    (by decide) (by decide)

theorem isNullish_of_truthy {v : JVal} (h : v.truthy = true) : v.isNullish = false := by
  cases v <;> simp_all [JVal.truthy, JVal.isNullish]

theorem nonAggFold_revPoints (xA yA zA xU yU zU : Option String) (color : String)
    (points : List DataPoint) (st : ScatterPlotChart.NonAggState) :
    (points.foldl (ScatterPlotChart.nonAggStep xA yA zA xU yU zU color) st).revPoints =
      (points.map (ScatterPlotChart.nonAggPoint xA yA zA xU yU zU color)).reverse ++
        st.revPoints := by
  induction points generalizing st with
  | nil => simp
  | cons p rest ih =>
    simp [List.foldl_cons, ih, ScatterPlotChart.nonAggStep, List.append_assoc]

theorem entryHasNulls_nonAggPoint (xA yA zA xU yU zU : Option String) (color : String)
    (p : DataPoint) (zb : Bool) :
    ScatterPlotChart.entryHasNulls
        (ScatterPlotChart.nonAggPoint xA yA zA xU yU zU color p) zb =
      ((jsGetOpt p xA).isNullish || (jsGetOpt p yA).isNullish ||
        (zb && ! (jsGetOpt p zA).truthy)) := by
  cases zb with
  | false =>
    by_cases h : (jsGetOpt p zA).truthy <;>
      simp [ScatterPlotChart.nonAggPoint, h, entryHasNulls_no_z]
  | true =>
    by_cases h : (jsGetOpt p zA).truthy
    · simp [ScatterPlotChart.nonAggPoint, h, entryHasNulls_with_z, isNullish_of_truthy h]
    · simp [ScatterPlotChart.nonAggPoint, h, entryHasNulls_with_z, JVal.isNullish]

theorem nonAgg_series_eq (row0 : ResultRow) (rest : List ResultRow) :
    ((ScatterPlotChart.getNonAggregatesData (row0 :: rest)).map (fun r => r.series)).getD [] =
      (row0.data.map
          (ScatterPlotChart.nonAggPoint
            ((getUniqueNonAggregates (row0 :: rest)).get? 0)
            ((getUniqueNonAggregates (row0 :: rest)).get? 1)
            ((getUniqueNonAggregates (row0 :: rest)).get? 2)
            (((getUniqueNonAggregates (row0 :: rest)).get? 0).bind
              (fun k => lookupA k row0.metadata.units_data))
            (((getUniqueNonAggregates (row0 :: rest)).get? 1).bind
              (fun k => lookupA k row0.metadata.units_data))
            (((getUniqueNonAggregates (row0 :: rest)).get? 2).bind
              (fun k => lookupA k row0.metadata.units_data))
            row0.metadata.color)).filter
        (fun e => ! ScatterPlotChart.entryHasNulls e
          (decide ((getUniqueNonAggregates (row0 :: rest)).length > 2))) := by
  simp only [ScatterPlotChart.getNonAggregatesData, Option.map_some', Option.getD_some]
  rw [nonAggFold_revPoints]
  simp

/-- C4 counterexample: a non-aggregate query with three unique attributes
and a single point whose x and y are numbers but whose third attribute is
`null` retains NO point: the point is dropped for the missing z, although
the claim says a point is dropped only when x or y is null/undefined. -/
theorem c4_scatter_z_counterexample :
    getUniqueNonAggregates [na3Row] = ["a", "b", "c"] ∧
    jsGet [("a", JVal.num 1), ("b", JVal.num 2), ("c", JVal.null)] "a" = JVal.num 1 ∧
    jsGet [("a", JVal.num 1), ("b", JVal.num 2), ("c", JVal.null)] "b" = JVal.num 2 ∧
    (ScatterPlotChart.transformData true [na3Row]).map (fun r => r.series) = some [] := by
  refine ⟨by decide, by decide, by decide, by decide⟩

/-- C4 amended: in non-aggregate mode a mapped point is retained exactly
when its x and y values are not null/undefined AND, whenever a third unique
attribute exists (count > 2), its z value is truthy (a falsy z — null,
undefined, 0 or NaN — is omitted from the point, which is then dropped by
the null filter, as in aggregate mode).  With exactly two attributes z is
never required: the spec's two-attribute example retains exactly one point,
while its three-attribute variant with a null z retains none. -/
theorem c4_scatter_nonagg_z_rule (row0 : ResultRow) (rest : List ResultRow)
    (p : DataPoint) (hp : p ∈ row0.data) :
    (ScatterPlotChart.nonAggPoint
          ((getUniqueNonAggregates (row0 :: rest)).get? 0)
          ((getUniqueNonAggregates (row0 :: rest)).get? 1)
          ((getUniqueNonAggregates (row0 :: rest)).get? 2)
          (((getUniqueNonAggregates (row0 :: rest)).get? 0).bind
            (fun k => lookupA k row0.metadata.units_data))
          (((getUniqueNonAggregates (row0 :: rest)).get? 1).bind
            (fun k => lookupA k row0.metadata.units_data))
          (((getUniqueNonAggregates (row0 :: rest)).get? 2).bind
            (fun k => lookupA k row0.metadata.units_data))
          row0.metadata.color p ∈
        ((ScatterPlotChart.getNonAggregatesData (row0 :: rest)).map
          (fun r => r.series)).getD [] ↔
      ((jsGetOpt p ((getUniqueNonAggregates (row0 :: rest)).get? 0)).isNullish = false ∧
        (jsGetOpt p ((getUniqueNonAggregates (row0 :: rest)).get? 1)).isNullish = false ∧
        ((getUniqueNonAggregates (row0 :: rest)).length > 2 →
          (jsGetOpt p ((getUniqueNonAggregates (row0 :: rest)).get? 2)).truthy = true))) ∧
    (ScatterPlotChart.transformData true [naRow]).map (fun r => r.series.length) = some 1 ∧
    (ScatterPlotChart.transformData true [na3Row]).map (fun r => r.series.length) = some 0 := by
  refine ⟨?_, by decide, by decide⟩
  have hmem := List.mem_map_of_mem
    (ScatterPlotChart.nonAggPoint
      ((getUniqueNonAggregates (row0 :: rest)).get? 0)
      ((getUniqueNonAggregates (row0 :: rest)).get? 1)
      ((getUniqueNonAggregates (row0 :: rest)).get? 2)
      (((getUniqueNonAggregates (row0 :: rest)).get? 0).bind
        (fun k => lookupA k row0.metadata.units_data))
      (((getUniqueNonAggregates (row0 :: rest)).get? 1).bind
        (fun k => lookupA k row0.metadata.units_data))
      (((getUniqueNonAggregates (row0 :: rest)).get? 2).bind
        (fun k => lookupA k row0.metadata.units_data))
      row0.metadata.color) hp
  rw [nonAgg_series_eq, List.mem_filter, and_iff_right hmem, entryHasNulls_nonAggPoint]
  by_cases hz : (getUniqueNonAggregates (row0 :: rest)).length > 2 <;>
    simp [hz, and_assoc]

/-- Witness for C4: the first point of the spec's two-attribute example is
retained (x and y are numbers, no third attribute exists). -/
theorem c4_scatter_nonagg_z_rule_witness :
    (ScatterPlotChart.nonAggPoint
          ((getUniqueNonAggregates [naRow]).get? 0)
          ((getUniqueNonAggregates [naRow]).get? 1)
          ((getUniqueNonAggregates [naRow]).get? 2)
          (((getUniqueNonAggregates [naRow]).get? 0).bind
            (fun k => lookupA k naRow.metadata.units_data))
          (((getUniqueNonAggregates [naRow]).get? 1).bind
            (fun k => lookupA k naRow.metadata.units_data))
          (((getUniqueNonAggregates [naRow]).get? 2).bind
            (fun k => lookupA k naRow.metadata.units_data))
          naRow.metadata.color [("duration", JVal.num 1), ("externalDuration", JVal.num fifth)] ∈
        ((ScatterPlotChart.getNonAggregatesData [naRow]).map
          (fun r => r.series)).getD [] ↔
      ((jsGetOpt [("duration", JVal.num 1), ("externalDuration", JVal.num fifth)]
          ((getUniqueNonAggregates [naRow]).get? 0)).isNullish = false ∧
        (jsGetOpt [("duration", JVal.num 1), ("externalDuration", JVal.num fifth)]
          ((getUniqueNonAggregates [naRow]).get? 1)).isNullish = false ∧
        ((getUniqueNonAggregates [naRow]).length > 2 →
          (jsGetOpt [("duration", JVal.num 1), ("externalDuration", JVal.num fifth)]
            ((getUniqueNonAggregates [naRow]).get? 2)).truthy = true))) ∧
    (ScatterPlotChart.transformData true [naRow]).map (fun r => r.series.length) = some 1 ∧
    (ScatterPlotChart.transformData true [na3Row]).map (fun r => r.series.length) = some 0 :=
  c4_scatter_nonagg_z_rule naRow []
    [("duration", JVal.num 1), ("externalDuration", JVal.num fifth)] (by decide)

/-- An aggregate-mode row carrying the `count` aggregate's value for a facet. -/
def agRowCount (facet : String) (v : ℚ) : ResultRow :=
  ⟨[[("y", .num v)]],
   ⟨"col-" ++ facet, "s", [fnGroup "count", facetGroup facet], [("y", "")]⟩⟩

/-- An aggregate-mode row carrying the `average` aggregate's value for a facet. -/
def agRowAvg (facet : String) (v : ℚ) : ResultRow :=
  ⟨[[("y", .num v)]],
   ⟨"col-" ++ facet, "s", [fnGroup "average", facetGroup facet], [("y", "")]⟩⟩

/-- Three facet groups under two aggregates; facet `r` is missing its
`average` value. -/
def agData : List ResultRow :=
  [agRowCount "p" 10, agRowAvg "p" 1, agRowCount "q" 20, agRowAvg "q" 2,
   agRowCount "r" 30]

/-- C6: in scatter aggregate mode, a grouped facet entry is in the output
series exactly when its x and y are not null/undefined and, when a third
aggregate is configured (more than 2 aggregate display names), its z is not
null/undefined; and the returned range is computed from the retained series
only. -/
theorem c6_scatter_aggregate_null_filtering (showOther : Bool) (fdn : List String)
    (rawData : List ResultRow) (e : ScatterPlotChart.SPoint) :
    (e ∈ (ScatterPlotChart.getAggregatesData showOther fdn rawData).series ↔
      (e ∈ ScatterPlotChart.aggSeries showOther fdn rawData ∧
        e.x.isNullish = false ∧ e.y.isNullish = false ∧
        (fdn.length > 2 → (e.z.getD .undefined).isNullish = false))) ∧
    (ScatterPlotChart.getAggregatesData showOther fdn rawData).range =
      { xMin := JVal.jsMinList
          ((ScatterPlotChart.getAggregatesData showOther fdn rawData).series.map (fun s => s.x))
        xMax := JVal.jsMaxList
          ((ScatterPlotChart.getAggregatesData showOther fdn rawData).series.map (fun s => s.x))
        yMin := JVal.jsMinList
          ((ScatterPlotChart.getAggregatesData showOther fdn rawData).series.map (fun s => s.y))
        yMax := JVal.jsMaxList
          ((ScatterPlotChart.getAggregatesData showOther fdn rawData).series.map (fun s => s.y)) } := by
  constructor
  · simp only [ScatterPlotChart.getAggregatesData, List.mem_filter]
    by_cases hz : fdn.length > 2 <;>
      simp [hz, ScatterPlotChart.entryHasNulls, and_assoc]
  · rfl

/-- C5 counterexample: in non-aggregate mode the second point of `c5Row` is
dropped (null y) so the retained x-values are `[2]`, yet the returned `xMin`
is 1, the dropped point's x — the range is not the min over retained points. -/
theorem c5_range_counterexample :
    (ScatterPlotChart.transformData true [c5Row]).map
        (fun r => r.series.map (fun e => e.x)) = some [JVal.num 2] ∧
    (ScatterPlotChart.transformData true [c5Row]).map (fun r => r.range.xMin) =
      some (JVal.num 1) := by
  refine ⟨by decide, by decide⟩

/-- C5 amended: in AGGREGATE mode the returned range is the min/max over the
retained points' x and y values (proved in general); in NON-AGGREGATE mode
the range is accumulated over every mapped point before the null filter, so
dropped points do contribute (shown on `c5Row`), while for fully retained
x-values `[2, 5, 1]` the result is still `xMin = 1, xMax = 5`. -/
theorem c5_scatter_range_rule (showOther : Bool) (fdn : List String)
    (rawData : List ResultRow) (q0 p0 : ℚ) (qs ps2 : List ℚ)
    (hx : (ScatterPlotChart.getAggregatesData showOther fdn rawData).series.map
        (fun e => e.x) = (q0 :: qs).map JVal.num)
    (hy : (ScatterPlotChart.getAggregatesData showOther fdn rawData).series.map
        (fun e => e.y) = (p0 :: ps2).map JVal.num) :
    ((ScatterPlotChart.getAggregatesData showOther fdn rawData).range.xMin =
        JVal.num (qs.foldl min q0) ∧
      qs.foldl min q0 ∈ q0 :: qs ∧ (∀ x ∈ q0 :: qs, qs.foldl min q0 ≤ x)) ∧
    ((ScatterPlotChart.getAggregatesData showOther fdn rawData).range.xMax =
        JVal.num (qs.foldl max q0) ∧
      qs.foldl max q0 ∈ q0 :: qs ∧ (∀ x ∈ q0 :: qs, x ≤ qs.foldl max q0)) ∧
    ((ScatterPlotChart.getAggregatesData showOther fdn rawData).range.yMin =
        JVal.num (ps2.foldl min p0) ∧
      ps2.foldl min p0 ∈ p0 :: ps2 ∧ (∀ x ∈ p0 :: ps2, ps2.foldl min p0 ≤ x)) ∧
    ((ScatterPlotChart.getAggregatesData showOther fdn rawData).range.yMax =
        JVal.num (ps2.foldl max p0) ∧
      ps2.foldl max p0 ∈ p0 :: ps2 ∧ (∀ x ∈ p0 :: ps2, x ≤ ps2.foldl max p0)) ∧
    (ScatterPlotChart.transformData true [c5bRow]).map
        (fun r => (r.range.xMin, r.range.xMax)) = some (JVal.num 1, JVal.num 5) ∧
    (ScatterPlotChart.transformData true [c5bRow]).map
        (fun r => r.series.map (fun e => e.x)) =
      some [JVal.num 2, JVal.num 5, JVal.num 1] ∧
    (ScatterPlotChart.transformData true [c5Row]).map
        (fun r => r.series.map (fun e => e.x)) = some [JVal.num 2] ∧
    (ScatterPlotChart.transformData true [c5Row]).map (fun r => r.range.xMin) =
      some (JVal.num 1) := by
  have hxmin : (ScatterPlotChart.getAggregatesData showOther fdn rawData).range.xMin =
      JVal.jsMinList ((ScatterPlotChart.getAggregatesData showOther fdn rawData).series.map
        (fun e => e.x)) := rfl
  have hxmax : (ScatterPlotChart.getAggregatesData showOther fdn rawData).range.xMax =
      JVal.jsMaxList ((ScatterPlotChart.getAggregatesData showOther fdn rawData).series.map
        (fun e => e.x)) := rfl
  have hymin : (ScatterPlotChart.getAggregatesData showOther fdn rawData).range.yMin =
      JVal.jsMinList ((ScatterPlotChart.getAggregatesData showOther fdn rawData).series.map
        (fun e => e.y)) := rfl
  have hymax : (ScatterPlotChart.getAggregatesData showOther fdn rawData).range.yMax =
      JVal.jsMaxList ((ScatterPlotChart.getAggregatesData showOther fdn rawData).series.map
        (fun e => e.y)) := rfl
  refine ⟨⟨?_, (foldl_min_spec qs q0).1, (foldl_min_spec qs q0).2⟩,
          ⟨?_, (foldl_max_spec qs q0).1, (foldl_max_spec qs q0).2⟩,
          ⟨?_, (foldl_min_spec ps2 p0).1, (foldl_min_spec ps2 p0).2⟩,
          ⟨?_, (foldl_max_spec ps2 p0).1, (foldl_max_spec ps2 p0).2⟩,
          by decide, by decide, by decide, by decide⟩
  · rw [hxmin, hx, jsMinList_num]
  · rw [hxmax, hx, jsMaxList_num]
  · rw [hymin, hy, jsMinList_num]
  · rw [hymax, hy, jsMaxList_num]

/-- Witness for C5: on `agData` the retained aggregate-mode points have
x-values `[10, 20]` and y-values `[1, 2]`, and the range is their min/max. -/
theorem c5_scatter_range_rule_witness :
    ((ScatterPlotChart.getAggregatesData true ["count", "average"] agData).range.xMin =
        JVal.num ([(20 : ℚ)].foldl min 10) ∧
      [(20 : ℚ)].foldl min 10 ∈ (10 : ℚ) :: [20] ∧
      (∀ x ∈ (10 : ℚ) :: [20], [(20 : ℚ)].foldl min 10 ≤ x)) ∧
    ((ScatterPlotChart.getAggregatesData true ["count", "average"] agData).range.xMax =
        JVal.num ([(20 : ℚ)].foldl max 10) ∧
      [(20 : ℚ)].foldl max 10 ∈ (10 : ℚ) :: [20] ∧
      (∀ x ∈ (10 : ℚ) :: [20], x ≤ [(20 : ℚ)].foldl max 10)) ∧
    ((ScatterPlotChart.getAggregatesData true ["count", "average"] agData).range.yMin =
        JVal.num ([(2 : ℚ)].foldl min 1) ∧
      [(2 : ℚ)].foldl min 1 ∈ (1 : ℚ) :: [2] ∧
      (∀ x ∈ (1 : ℚ) :: [2], [(2 : ℚ)].foldl min 1 ≤ x)) ∧
    ((ScatterPlotChart.getAggregatesData true ["count", "average"] agData).range.yMax =
        JVal.num ([(2 : ℚ)].foldl max 1) ∧
      [(2 : ℚ)].foldl max 1 ∈ (1 : ℚ) :: [2] ∧
      (∀ x ∈ (1 : ℚ) :: [2], x ≤ [(2 : ℚ)].foldl max 1)) ∧
    (ScatterPlotChart.transformData true [c5bRow]).map
        (fun r => (r.range.xMin, r.range.xMax)) = some (JVal.num 1, JVal.num 5) ∧
    (ScatterPlotChart.transformData true [c5bRow]).map
        (fun r => r.series.map (fun e => e.x)) =
      some [JVal.num 2, JVal.num 5, JVal.num 1] ∧
    (ScatterPlotChart.transformData true [c5Row]).map
        (fun r => r.series.map (fun e => e.x)) = some [JVal.num 2] ∧
    (ScatterPlotChart.transformData true [c5Row]).map (fun r => r.range.xMin) =
      some (JVal.num 1) :=
  c5_scatter_range_rule true ["count", "average"] agData 10 1 [20] [2]
    (by decide) (by decide)

theorem foldl_stackStep_false_filter (rows : List ResultRow)
    (st : StackedBarChart.StackState) :
    rows.foldl (StackedBarChart.stackStep false) st =
      (rows.filter (fun r =>
        (StackedBarChart.getFacetLabels r.metadata.groups).barLabel != "Other")).foldl
        (StackedBarChart.stackStep true) st := by
  induction rows generalizing st with
  | nil => rfl
  | cons r rest ih =>
    by_cases h : (StackedBarChart.getFacetLabels r.metadata.groups).barLabel = "Other" <;>
      simp [StackedBarChart.stackStep, h, List.filter_cons, ih]

theorem stackStepBody_noOther (st : StackedBarChart.StackState) (row : ResultRow)
    (hb : (StackedBarChart.getFacetLabels row.metadata.groups).barLabel ≠ "Other")
    (h : ∀ seg ∈ st.breakdown, ∀ bar ∈ seg.2, bar.1 ≠ "Other") :
    ∀ seg ∈ (StackedBarChart.stackStepBody st row).breakdown, ∀ bar ∈ seg.2,
      bar.1 ≠ "Other" := by
  intro seg hseg bar hbar
  simp only [StackedBarChart.stackStepBody] at hseg
  rcases mem_upsertA hseg with hseg2 | hseg2
  · exact h seg hseg2 bar hbar
  · rw [hseg2] at hbar
    rcases mem_upsertA hbar with hbar2 | hbar2
    · cases hl : lookupA (StackedBarChart.getFacetLabels row.metadata.groups).segmentLabel
          st.breakdown with
      | none => rw [hl] at hbar2; simp at hbar2
      | some inner =>
        rw [hl] at hbar2
        exact h (_, inner) (lookupA_eq_some_mem hl) bar (by simpa using hbar2)
    · rw [hbar2]
      exact hb

theorem foldl_stackStep_false_noOther (rows : List ResultRow)
    (st : StackedBarChart.StackState)
    (h : ∀ seg ∈ st.breakdown, ∀ bar ∈ seg.2, bar.1 ≠ "Other") :
    ∀ seg ∈ ((rows.foldl (StackedBarChart.stackStep false) st).breakdown), ∀ bar ∈ seg.2,
      bar.1 ≠ "Other" := by
  induction rows generalizing st with
  | nil => exact h
  | cons r rest ih =>
    rw [List.foldl_cons]
    refine ih _ ?_
    by_cases hb : (StackedBarChart.getFacetLabels r.metadata.groups).barLabel = "Other"
    · simpa [StackedBarChart.stackStep, hb] using h
    · have := stackStepBody_noOther st r hb h
      simpa [StackedBarChart.stackStep, hb] using this

/-- C7: with "other" visibility false, rows whose barLabel is the reserved
"Other" bucket are dropped before aggregation — the transform equals the
visible-true transform of the row set with those rows filtered out — so no
output point carries the "Other" bar label and the distinct-bar count is that
of the filtered rows; with visibility true the reduce step is the
unconditional body, treating such rows like any other row. -/
theorem c7_stacked_other_filtering (rows : List ResultRow) :
    StackedBarChart.transformData false rows =
      StackedBarChart.transformData true
        (rows.filter (fun r =>
          (StackedBarChart.getFacetLabels r.metadata.groups).barLabel != "Other")) ∧
    (∀ series ∈ StackedBarChart.transformData false rows, ∀ p ∈ series, p.x ≠ "Other") ∧
    StackedBarChart.getBarCount (StackedBarChart.transformData false rows) =
      StackedBarChart.getBarCount
        (StackedBarChart.transformData true
          (rows.filter (fun r =>
            (StackedBarChart.getFacetLabels r.metadata.groups).barLabel != "Other"))) ∧
    (∀ (st : StackedBarChart.StackState) (row : ResultRow),
      StackedBarChart.stackStep true st row = StackedBarChart.stackStepBody st row) := by
  have heq : StackedBarChart.transformData false rows =
      StackedBarChart.transformData true
        (rows.filter (fun r =>
          (StackedBarChart.getFacetLabels r.metadata.groups).barLabel != "Other")) := by
    simp only [StackedBarChart.transformData, foldl_stackStep_false_filter]
  refine ⟨heq, ?_, by rw [heq], fun st row => rfl⟩
  intro series hseries p hp
  simp only [StackedBarChart.transformData] at hseries
  obtain ⟨seg, hseg, rfl⟩ := List.mem_map.mp hseries
  obtain ⟨bar, hbar, rfl⟩ := List.mem_map.mp hp
  exact foldl_stackStep_false_noOther rows {} (by simp) seg hseg bar hbar

theorem lookupA_getD_bind {v : Type} (b : String) (o : Option (List (String × v))) :
    lookupA b (o.getD []) = o.bind (lookupA b) := by
  cases o <;> rfl

theorem lookupBreak_stackStepBody (st : StackedBarChart.StackState) (row : ResultRow)
    (s b : String) :
    (lookupA s (StackedBarChart.stackStepBody st row).breakdown).bind (lookupA b) =
      if StackedBarChart.getFacetLabels row.metadata.groups =
          { barLabel := b, segmentLabel := s } then some row.firstY
      else (lookupA s st.breakdown).bind (lookupA b) := by
  by_cases hs : (StackedBarChart.getFacetLabels row.metadata.groups).segmentLabel = s
  · rw [show (StackedBarChart.stackStepBody st row).breakdown =
        upsertA (StackedBarChart.getFacetLabels row.metadata.groups).segmentLabel
          (fun inner =>
            upsertA (StackedBarChart.getFacetLabels row.metadata.groups).barLabel
              (fun _ => row.firstY) (inner.getD []))
          st.breakdown from rfl, hs, lookupA_upsertA_self]
    by_cases hb : (StackedBarChart.getFacetLabels row.metadata.groups).barLabel = b
    · rw [Option.some_bind, hb, lookupA_upsertA_self]
      rw [if_pos]
      cases h : StackedBarChart.getFacetLabels row.metadata.groups
      simp only [StackedBarChart.FacetLabels.mk.injEq]
      rw [h] at hs hb
      exact ⟨hb, hs⟩
    · rw [Option.some_bind, lookupA_upsertA_ne
        (StackedBarChart.getFacetLabels row.metadata.groups).barLabel b
        (fun hc => hb hc.symm), lookupA_getD_bind]
      rw [if_neg]
      intro hc
      exact hb (by rw [hc])
  · rw [show (StackedBarChart.stackStepBody st row).breakdown =
        upsertA (StackedBarChart.getFacetLabels row.metadata.groups).segmentLabel
          (fun inner =>
            upsertA (StackedBarChart.getFacetLabels row.metadata.groups).barLabel
              (fun _ => row.firstY) (inner.getD []))
          st.breakdown from rfl,
      lookupA_upsertA_ne (StackedBarChart.getFacetLabels row.metadata.groups).segmentLabel s
        (fun hc => hs hc.symm)]
    rw [if_neg]
    intro hc
    exact hs (by rw [hc])

theorem lookupBreak_foldl_stackStep (rows : List ResultRow)
    (st : StackedBarChart.StackState) (s b : String) :
    (lookupA s ((rows.foldl (StackedBarChart.stackStep true) st).breakdown)).bind
        (lookupA b) =
      match (rows.filter (fun r =>
          StackedBarChart.getFacetLabels r.metadata.groups ==
            { barLabel := b, segmentLabel := s })).getLast? with
      | some r => some r.firstY
      | none => (lookupA s st.breakdown).bind (lookupA b) := by
  induction rows generalizing st with
  | nil => rfl
  | cons r rest ih =>
    rw [List.foldl_cons,
      show StackedBarChart.stackStep true st r = StackedBarChart.stackStepBody st r from rfl,
      ih]
    by_cases hm : StackedBarChart.getFacetLabels r.metadata.groups =
        { barLabel := b, segmentLabel := s }
    · rw [List.filter_cons_of_pos (by simpa using hm)]
      cases hfil : rest.filter (fun r =>
          StackedBarChart.getFacetLabels r.metadata.groups ==
            { barLabel := b, segmentLabel := s }) with
      | nil => simp [hfil, lookupBreak_stackStepBody, hm]
      | cons f fs =>
        rw [List.getLast?_cons_cons]
        cases hgl : (f :: fs).getLast? with
        | none => simp at hgl
        | some x => simp [hgl]
    · rw [List.filter_cons_of_neg (by simpa using hm)]
      cases hfil : rest.filter (fun r =>
          StackedBarChart.getFacetLabels r.metadata.groups ==
            { barLabel := b, segmentLabel := s }) with
      | nil => simp [hfil, lookupBreak_stackStepBody, hm]
      | cons f fs =>
        cases hgl : (f :: fs).getLast? with
        | none => simp at hgl
        | some x => simp [hgl]

theorem stackStepBody_nodup (st : StackedBarChart.StackState) (row : ResultRow)
    (h1 : (st.breakdown.map Prod.fst).Nodup)
    (h2 : ∀ seg ∈ st.breakdown, (seg.2.map Prod.fst).Nodup) :
    ((StackedBarChart.stackStepBody st row).breakdown.map Prod.fst).Nodup ∧
      ∀ seg ∈ (StackedBarChart.stackStepBody st row).breakdown,
        (seg.2.map Prod.fst).Nodup := by
  constructor
  · exact nodup_keys_upsertA _ _ h1
  · intro seg hseg
    rcases mem_upsertA hseg with hseg2 | hseg2
    · exact h2 seg hseg2
    · rw [hseg2]
      refine nodup_keys_upsertA _ _ ?_
      cases hl : lookupA
          (StackedBarChart.getFacetLabels row.metadata.groups).segmentLabel
          st.breakdown with
      | none => simp
      | some inner =>
        simpa using h2 (_, inner) (lookupA_eq_some_mem hl)

theorem foldl_stackStep_nodup (rows : List ResultRow) (st : StackedBarChart.StackState)
    (h1 : (st.breakdown.map Prod.fst).Nodup)
    (h2 : ∀ seg ∈ st.breakdown, (seg.2.map Prod.fst).Nodup) :
    (((rows.foldl (StackedBarChart.stackStep true) st).breakdown).map Prod.fst).Nodup ∧
      ∀ seg ∈ (rows.foldl (StackedBarChart.stackStep true) st).breakdown,
        (seg.2.map Prod.fst).Nodup := by
  induction rows generalizing st with
  | nil => exact ⟨h1, h2⟩
  | cons r rest ih =>
    rw [List.foldl_cons,
      show StackedBarChart.stackStep true st r = StackedBarChart.stackStepBody st r from rfl]
    obtain ⟨g1, g2⟩ := stackStepBody_nodup st r h1 h2
    exact ih _ g1 g2

/-- C9: in the stacked-bar two-level mapping, the value stored at a
(segmentLabel, barLabel) pair is the `data[0].y` of the LAST input row that
derives that pair — later assignments overwrite earlier ones — and every
output bar segment with that segment label and bar label carries exactly that
last row's value. -/
theorem c9_stacked_duplicate_overwrite (rows : List ResultRow) (s b : String) :
    ((lookupA s ((rows.foldl (StackedBarChart.stackStep true) {}).breakdown)).bind
        (lookupA b) =
      ((rows.filter (fun r =>
          StackedBarChart.getFacetLabels r.metadata.groups ==
            { barLabel := b, segmentLabel := s })).getLast?).map (fun r => r.firstY)) ∧
    (∀ series ∈ StackedBarChart.transformData true rows, ∀ p ∈ series,
      p.segmentLabel = s → p.x = b →
        some p.y = ((rows.filter (fun r =>
            StackedBarChart.getFacetLabels r.metadata.groups ==
              { barLabel := b, segmentLabel := s })).getLast?).map (fun r => r.firstY)) := by
  have h1 : (lookupA s ((rows.foldl (StackedBarChart.stackStep true) {}).breakdown)).bind
      (lookupA b) =
      ((rows.filter (fun r =>
          StackedBarChart.getFacetLabels r.metadata.groups ==
            { barLabel := b, segmentLabel := s })).getLast?).map (fun r => r.firstY) := by
    rw [lookupBreak_foldl_stackStep]
    cases (rows.filter (fun r =>
        StackedBarChart.getFacetLabels r.metadata.groups ==
          { barLabel := b, segmentLabel := s })).getLast? <;> rfl
  refine ⟨h1, ?_⟩
  intro series hseries p hp hps hpb
  simp only [StackedBarChart.transformData] at hseries
  obtain ⟨seg, hseg, rfl⟩ := List.mem_map.mp hseries
  obtain ⟨bar, hbar, rfl⟩ := List.mem_map.mp hp
  obtain ⟨hn1, hn2⟩ := foldl_stackStep_nodup rows {} (by simp) (by simp)
  have hsegl : lookupA seg.1
      ((rows.foldl (StackedBarChart.stackStep true) {}).breakdown) = some seg.2 :=
    (mem_iff_lookupA hn1 seg.1 seg.2).mp hseg
  have hbarl : lookupA bar.1 seg.2 = some bar.2 :=
    (mem_iff_lookupA (hn2 seg hseg) bar.1 bar.2).mp hbar
  rw [← h1]
  simp only at hps hpb
  rw [← hps, ← hpb, hsegl, Option.some_bind, hbarl]
